import Mathlib

/-!
Verification of the pybalboa protocol engine (frame codec, message catalog,
status decoder, channel-arbitration client) against its design document.

The definitions below are shallow embeddings of the Python source:
`src/pybalboa/messages.py` (frame codec and message catalog) and
`src/pybalboa/clients.py` (arbitration client `Client._onmessage` and the
TCP status decoder `TcpClient.parse_status_update`).  Bytes are modelled as
`Nat` (with explicit `&&& 0xff` masking exactly where the source masks) and
byte strings as `List Nat`; Python's `None` channel is `Option Nat`.
-/

namespace Pybalboa

/-- `Message.CRC_TABLE` from messages.py (polynomial 0x07), all 256 entries. -/
def CRC_TABLE : List Nat := [
  0x00, 0x07, 0x0e, 0x09, 0x1c, 0x1b, 0x12, 0x15, 0x38, 0x3f, 0x36, 0x31, 0x24, 0x23, 0x2a, 0x2d,
  0x70, 0x77, 0x7e, 0x79, 0x6c, 0x6b, 0x62, 0x65, 0x48, 0x4f, 0x46, 0x41, 0x54, 0x53, 0x5a, 0x5d,
  0xe0, 0xe7, 0xee, 0xe9, 0xfc, 0xfb, 0xf2, 0xf5, 0xd8, 0xdf, 0xd6, 0xd1, 0xc4, 0xc3, 0xca, 0xcd,
  0x90, 0x97, 0x9e, 0x99, 0x8c, 0x8b, 0x82, 0x85, 0xa8, 0xaf, 0xa6, 0xa1, 0xb4, 0xb3, 0xba, 0xbd,
  0xc7, 0xc0, 0xc9, 0xce, 0xdb, 0xdc, 0xd5, 0xd2, 0xff, 0xf8, 0xf1, 0xf6, 0xe3, 0xe4, 0xed, 0xea,
  0xb7, 0xb0, 0xb9, 0xbe, 0xab, 0xac, 0xa5, 0xa2, 0x8f, 0x88, 0x81, 0x86, 0x93, 0x94, 0x9d, 0x9a,
  0x27, 0x20, 0x29, 0x2e, 0x3b, 0x3c, 0x35, 0x32, 0x1f, 0x18, 0x11, 0x16, 0x03, 0x04, 0x0d, 0x0a,
  0x57, 0x50, 0x59, 0x5e, 0x4b, 0x4c, 0x45, 0x42, 0x6f, 0x68, 0x61, 0x66, 0x73, 0x74, 0x7d, 0x7a,
  0x89, 0x8e, 0x87, 0x80, 0x95, 0x92, 0x9b, 0x9c, 0xb1, 0xb6, 0xbf, 0xb8, 0xad, 0xaa, 0xa3, 0xa4,
  0xf9, 0xfe, 0xf7, 0xf0, 0xe5, 0xe2, 0xeb, 0xec, 0xc1, 0xc6, 0xcf, 0xc8, 0xdd, 0xda, 0xd3, 0xd4,
  0x69, 0x6e, 0x67, 0x60, 0x75, 0x72, 0x7b, 0x7c, 0x51, 0x56, 0x5f, 0x58, 0x4d, 0x4a, 0x43, 0x44,
  0x19, 0x1e, 0x17, 0x10, 0x05, 0x02, 0x0b, 0x0c, 0x21, 0x26, 0x2f, 0x28, 0x3d, 0x3a, 0x33, 0x34,
  0x4e, 0x49, 0x40, 0x47, 0x52, 0x55, 0x5c, 0x5b, 0x76, 0x71, 0x78, 0x7f, 0x6a, 0x6d, 0x64, 0x63,
  0x3e, 0x39, 0x30, 0x37, 0x22, 0x25, 0x2c, 0x2b, 0x06, 0x01, 0x08, 0x0f, 0x1a, 0x1d, 0x14, 0x13,
  0xae, 0xa9, 0xa0, 0xa7, 0xb2, 0xb5, 0xbc, 0xbb, 0x96, 0x91, 0x98, 0x9f, 0x8a, 0x8d, 0x84, 0x83,
  0xde, 0xd9, 0xd0, 0xd7, 0xc2, 0xc5, 0xcc, 0xcb, 0xe6, 0xe1, 0xe8, 0xef, 0xfa, 0xfd, 0xf4, 0xf3]

/-- The frame delimiter byte 0x7E (`Message.DELIMITER`). -/
def DELIMITER : Nat := 0x7e

/-- The broadcast channel 0xFF (`Message.BROADCAST_CHANNEL`). -/
def BROADCAST_CHANNEL : Nat := 0xff

/-- A protocol message (`Message.__init__`): channel (Python may hold `None`,
hence `Option`), type code, and the argument/payload bytes. -/
structure Message where
  channel : Option Nat
  type_code : Nat
  arguments : List Nat
deriving DecidableEq, Repr

/-- One step of the table-driven CRC loop in `Message.crc`:
`crc = (CRC_TABLE[(crc ^ b) & 0xff] ^ (crc << 8)) & 0xff`. -/
def crcStep (c b : Nat) : Nat :=
  (CRC_TABLE.getD ((c ^^^ b) &&& 0xff) 0 ^^^ (c <<< 8)) &&& 0xff

/-- `Message.crc`: table-driven CRC-8, initial value 0x02, final XOR 0x02. -/
def Message.crc (data : List Nat) : Nat :=
  (data.foldl crcStep 0x02) ^^^ 0x02

/-- One shift step of the reference bit-by-bit (MSB-first, non-reflected)
CRC-8 with polynomial 0x07, modelled from the spec's words. -/
def crc8BitStep (c : Nat) : Nat :=
  if c &&& 0x80 = 0 then (c <<< 1) &&& 0xff else ((c <<< 1) ^^^ 0x07) &&& 0xff

/-- Reference bit-by-bit CRC-8 byte step: XOR the byte in, then eight
MSB-first polynomial shift steps. -/
def crc8RefStep (c b : Nat) : Nat :=
  crc8BitStep^[8] (c ^^^ b)

/-- Reference bit-by-bit CRC-8 over a byte span, modelled from the spec's
words: polynomial 0x07, initial value 0x02, final XOR 0x02, non-reflected
MSB-first processing. -/
def crc8Ref (data : List Nat) : Nat :=
  (data.foldl crc8RefStep 0x02) ^^^ 0x02

/-- The flag byte `Message.__bytes__` writes: 0xAF on the broadcast channel,
0xBF otherwise. -/
def flagFor (ch : Nat) : Nat :=
  if ch = BROADCAST_CHANNEL then 0xaf else 0xbf

/-- `Message.__bytes__`: serialize a message to a frame.  Returns `none`
where the Python code raises: the channel is `None` (TypeError in
`bytes([self.channel])`), or the length byte `len(arguments) + 5`, the
channel or the type code does not fit in one byte (ValueError in `bytes`). -/
def Message.toBytes (m : Message) : Option (List Nat) :=
  match m.channel with
  | none => none
  | some ch =>
    if m.arguments.length + 5 ≤ 0xff ∧ ch ≤ 0xff ∧ m.type_code ≤ 0xff then
      let body := [m.arguments.length + 5, ch, flagFor ch, m.type_code] ++ m.arguments
      some ([DELIMITER] ++ body ++ [Message.crc body, DELIMITER])
    else
      none

/-- `Message.__len__`: `bytes(self)[1]`, i.e. the interior length byte of the
serialized frame (`none` where serialization fails). -/
def Message.pyLen (m : Message) : Option Nat :=
  m.toBytes.map fun b => b.getD 1 0

/-- The distinct `ValueError` (and, for `index`, `IndexError`) outcomes of
`Message.from_bytes`, told apart by their message strings. -/
inductive DecodeError where
  /-- "Messages must start and end with Message.DELIMITER" -/
  | framing
  /-- "Invalid length for ..." -/
  | length
  /-- "Invalid channel for ..." -/
  | channel
  /-- "Invalid message type code for ..." -/
  | typeCode
  /-- "Invalid checksum" -/
  | checksum
  /-- `IndexError` from `b[0]` on an empty input (not a `ValueError`) -/
  | index
deriving DecidableEq, Repr

/-- `Message.from_bytes` for a class `cls`, parameterized by the class's
optional `LENGTH`, `CHANNEL` and `TYPE_CODE` attributes (the `hasattr`
checks in the source).  Checks, in source order: delimiters; declared
length (`len(b) < 5 or b[0] != len(b) or b[0] != cls.LENGTH`); pinned
channel; pinned type code; checksum.  On success returns the generic
message `Message(channel=b[1], type_code=b[3], arguments=b[4:-1])`. -/
def fromBytesWith (LEN CH TY : Option Nat) (b : List Nat) : Except DecodeError Message :=
  if b.length = 0 then .error .index
  else if ¬ (b.getD 0 0 = DELIMITER ∧ b.getD (b.length - 1) 0 = DELIMITER) then .error .framing
  else if (b.drop 1).dropLast.length < 5 ∨
      (b.drop 1).dropLast.getD 0 0 ≠ (b.drop 1).dropLast.length ∨
      (LEN.any fun L => (b.drop 1).dropLast.getD 0 0 != L) then
    .error .length
  else if CH.any fun c => (b.drop 1).dropLast.getD 1 0 != c then .error .channel
  else if TY.any fun t => (b.drop 1).dropLast.getD 3 0 != t then .error .typeCode
  else if (b.drop 1).dropLast.getD ((b.drop 1).dropLast.length - 1) 0
      ≠ Message.crc (b.drop 1).dropLast.dropLast then
    .error .checksum
  else
    .ok ⟨some ((b.drop 1).dropLast.getD 1 0), (b.drop 1).dropLast.getD 3 0,
      ((b.drop 1).dropLast.drop 4).dropLast⟩

/-- `Message.from_bytes` on the base class (no pinned length, channel or
type code). -/
def Message.fromBytes (b : List Nat) : Except DecodeError Message :=
  fromBytesWith none none none b

/-- `StatusUpdate.__init__` (messages.py): builds the 23 argument bytes from
the typed fields, including the source's operator precedence on byte 10
(`((heating_status & 0x3) << 4) + (temperature_range & 0x1) << 3` parses as
`(((hs & 3) << 4) + (tr & 1)) << 3` in Python). -/
def mkStatusUpdate (priming_mode current_temperature hours minutes heating_mode
    filter_mode temperature_scale time_mode heating_status temperature_range
    pump_status circ_pump light_status set_temperature : Nat) : Message :=
  { channel := some 0xff
    type_code := 0x13
    arguments := [
      0x00,
      priming_mode &&& 0x1,
      current_temperature,
      hours,
      minutes,
      heating_mode &&& 0x3,
      0x00,
      0x00,
      0x00,
      ((filter_mode &&& 0x3) <<< 2) + ((time_mode &&& 0x1) <<< 1) + (temperature_scale &&& 0x1),
      (((heating_status &&& 0x3) <<< 4) + (temperature_range &&& 0x1)) <<< 3,
      pump_status,
      0x00,
      (circ_pump &&& 0x1) <<< 1,
      ((light_status &&& 0x1) <<< 1) + (light_status &&& 0x1),
      0x00,
      0x00,
      0x00,
      0x00,
      0x00,
      set_temperature,
      0x00,
      0x00] }

/-- `StatusUpdate.from_bytes` (messages.py): base-class parse with
`LENGTH = 28`, `CHANNEL = 0xFF`, `TYPE_CODE = 0x13`, then re-extract the
fields from the argument bytes exactly as the source does (including
`time_mode=(b[9] & 0x1) >> 1` and `heating_status=(b[10] & 0x3) >> 4`)
and rebuild the `StatusUpdate`. -/
def StatusUpdate.fromBytes (bs : List Nat) : Except DecodeError Message :=
  (fromBytesWith (some 28) (some 0xff) (some 0x13) bs).map fun msg =>
    let b := msg.arguments
    mkStatusUpdate
      (b.getD 1 0 &&& 0x1)
      (b.getD 2 0)
      (b.getD 3 0)
      (b.getD 4 0)
      (b.getD 5 0 &&& 0x3)
      ((b.getD 9 0 &&& 0xc) >>> 2)
      (b.getD 9 0 &&& 0x1)
      ((b.getD 9 0 &&& 0x1) >>> 1)
      ((b.getD 10 0 &&& 0x3) >>> 4)
      (b.getD 10 0 &&& 0x2)
      (b.getD 11 0)
      (b.getD 13 0)
      (b.getD 14 0)
      (b.getD 20 0)

/-- `NewClientClearToSend`: type 0x00 on the arbitration channel 0xFE. -/
def newClientClearToSend : Message := ⟨some 0xfe, 0x00, []⟩

/-- `ChannelAssignmentRequest(bytes([0x02, 0xF1, 0x73]))` as sent by
`Client._onmessage`: type 0x01 on channel 0xFE. -/
def channelAssignmentRequest : Message := ⟨some 0xfe, 0x01, [0x02, 0xf1, 0x73]⟩

/-- `ChannelAssignmentResponse`: type 0x02 on channel 0xFE. -/
def channelAssignmentResponse (args : List Nat) : Message := ⟨some 0xfe, 0x02, args⟩

/-- `ChannelAssignmentAcknowlegement(channel)`: type 0x03. -/
def channelAssignmentAck (ch : Nat) : Message := ⟨some ch, 0x03, []⟩

/-- `ClientClearToSend(channel)`: type 0x06. -/
def clientClearToSend (ch : Nat) : Message := ⟨some ch, 0x06, []⟩

/-- `NothingToSend(channel)`: type 0x07. -/
def nothingToSend (ch : Nat) : Message := ⟨some ch, 0x07, []⟩

/-- The mutable state of `Client` (clients.py): the assigned channel (or
`none`), the FIFO outbound queue, and `_channel_timeout` (an absolute
deadline, or `none` when disarmed). -/
structure ClientState where
  channel : Option Nat
  queue : List Message
  channelTimeout : Option Nat
deriving DecidableEq, Repr

/-- `Client._onmessage` (clients.py): one step of the arbitration machine.
`now` is the value `time.time()` would return during the step.  Returns the
new state, the messages passed to `_send_internal` and whether the
channel-timeout diagnostic (`log.error("No Client Clear to Send...")`) fired.
Returns `none` where the Python code raises before completing the step:
`msg.arguments[0]` on an empty argument list (IndexError), and the
`ExistingClientRequest` reply, which names the nonexistent attribute
`messages.ExisingClientResponse` (AttributeError). -/
def Client.onmessage (now : Nat) (s : ClientState) (msg : Message) :
    Option (ClientState × List Message × Bool) :=
  match s.channel with
  | none =>
    if msg.type_code = 0x00 then
      some (s, [channelAssignmentRequest], false)
    else if msg.type_code = 0x02 then
      match msg.arguments with
      | [] => none
      | a0 :: _ => some ({ s with channel := some a0 }, [channelAssignmentAck a0], false)
    else
      some (s, [], false)
  | some ch =>
    if msg.channel = some ch then
      if msg.type_code = 0x04 then
        none
      else if msg.type_code = 0x06 then
        match s.queue with
        | [] => some ({ s with channelTimeout := none }, [nothingToSend ch], false)
        | m :: rest => some ({ s with queue := rest, channelTimeout := none }, [m], false)
      else
        some ({ s with channelTimeout := none }, [], false)
    else
      match s.channelTimeout with
      | some t => some (s, [], decide (now > t))
      | none => some (s, [], false)

/-- Run `Client._onmessage` over a timed inbound sequence, collecting the
outbound messages in order and the per-step diagnostic flags. -/
def Client.run (s : ClientState) : List (Nat × Message) → Option (ClientState × List Message × List Bool)
  | [] => some (s, [], [])
  | (now, m) :: rest =>
    match Client.onmessage now s m with
    | none => none
    | some (s1, out, d) =>
      match Client.run s1 rest with
      | none => none
      | some (s2, outs, ds) => some (s2, out ++ outs, d :: ds)

/-- The change-detection and snapshot-replacement core of
`TcpClient.parse_status_update` (clients.py), with the configuration already
loaded.  `prior` is `self.prior_status` (`none` before the first broadcast),
`data` the full inbound status frame.  The loop compares `data[i]` with
`prior_status[i]` for `i in range(0, 31)`; on any difference (or a missing
prior) the decoder proceeds and finally copies `data[0..30]` into
`prior_status` wholesale.  Returns the new `prior_status` and whether new
data was reported. -/
def parseStatusUpdateDiff (prior : Option (List Nat)) (data : List Nat) :
    Option (List Nat) × Bool :=
  match prior with
  | some p =>
    if (List.range 31).any (fun i => data.getD i 0 != p.getD i 0) then
      (some ((List.range 31).map fun i => data.getD i 0), true)
    else
      (some p, false)
  | none => (some ((List.range 31).map fun i => data.getD i 0), true)

/-- `self.heatstate = (data[15] & 0x30) >> 4` in `parse_status_update`. -/
def heatstate (data : List Nat) : Nat := (data.getD 15 0 &&& 0x30) >>> 4

/-- `self.temprange = (data[15] & 0x04) >> 2` in `parse_status_update`. -/
def temprange (data : List Nat) : Nat := (data.getD 15 0 &&& 0x04) >>> 2

/-- The pump loop of `parse_status_update`: for `i in range(0, 6)`, skip
pumps absent from `self.pump_array` (keeping the old status), else read
`(data[16] >> i) & 0x03` for pumps 1-4 and `(data[17] >> (i - 4)) & 0x03`
for pumps 5-6. -/
def pumpStatusUpdate (pumpArray old data : List Nat) : List Nat :=
  (List.range 6).map fun i =>
    if pumpArray.getD i 0 ≠ 0 then
      if i < 4 then (data.getD 16 0 >>> i) &&& 0x03
      else (data.getD 17 0 >>> (i - 4)) &&& 0x03
    else old.getD i 0

/-- Modelled from the spec's words (claim wording, for comparison with the
code): pump speeds "packed at 2 bits per pump across two bytes (pumps 1-4 in
the first byte, pumps 5-6 in the next)". -/
def pumpSpeedSpecTwoBit (data : List Nat) (i : Nat) : Nat :=
  if i < 4 then (data.getD 16 0 >>> (2 * i)) &&& 0x03
  else (data.getD 17 0 >>> (2 * (i - 4))) &&& 0x03

/-- Modelled from the spec's words (claim wording, for comparison with the
code): "the temperature-range from bit 3 of payload byte 10" (payload byte
10 is `data[15]` of the full frame). -/
def temprangeSpecBit3 (data : List Nat) : Nat := (data.getD 15 0 >>> 3) &&& 0x1

/-! ## Theorems -/

set_option maxRecDepth 100000 in
/-- C1: the claim `parse(serialize(m)) == m` for every constructible variant
fails on the code.  The `StatusUpdate` with `time_mode = 1` and every other
field zero serializes and parses back cleanly, but `StatusUpdate.from_bytes`
reads `time_mode` as `(b[9] & 0x1) >> 1` — always 0 — instead of
`(b[9] >> 1) & 0x1`, so the reparsed message has argument byte 9 equal to 0
where the original has 2: the round trip loses the 12/24-hour time mode. -/
theorem C1_statusUpdate_roundtrip_fails :
    (mkStatusUpdate 0 0 0 0 0 0 0 1 0 0 0 0 0 0).toBytes.map StatusUpdate.fromBytes
      = some (Except.ok (mkStatusUpdate 0 0 0 0 0 0 0 0 0 0 0 0 0 0)) ∧
    mkStatusUpdate 0 0 0 0 0 0 0 1 0 0 0 0 0 0
      ≠ mkStatusUpdate 0 0 0 0 0 0 0 0 0 0 0 0 0 0 := by
  constructor
  · rfl
  · decide

/-- C4 counterexample: the claim says every input with fewer than 7 bytes
fails with a framing error, but the 2-byte input `0x7E 0x7E` passes the
delimiter check and fails with a length error instead. -/
theorem C4_short_input_not_framing :
    [0x7e, 0x7e].length < 7 ∧
    Message.fromBytes [0x7e, 0x7e] = .error .length ∧
    DecodeError.length ≠ DecodeError.framing := by
  refine ⟨by decide, rfl, by decide⟩

/-- C4 (amended): decoding fails with a framing error for every nonempty
input whose first or last byte differs from 0x7E; with a length error when
the delimiters are right but the interior (the bytes strictly between the
delimiters) is shorter than 5 bytes — which covers every input of fewer
than 7 bytes — or its declared length byte differs from the interior count;
with a checksum error when delimiters and length are right but the trailing
interior byte differs from `crc` of the interior bytes before it; and on
success returns the generic message carrying the input's channel byte, type
code and payload. -/
lemma length_ne_zero_of_ne_nil : ∀ b : List Nat, b ≠ [] → ¬ b.length = 0 := by
  intro b hb h
  exact hb (List.length_eq_zero.mp h)

lemma fromBytes_error_framing (b : List Nat) (hb : b ≠ [])
    (hdelim : ¬ (b.getD 0 0 = DELIMITER ∧ b.getD (b.length - 1) 0 = DELIMITER)) :
    Message.fromBytes b = .error .framing := by
  unfold Message.fromBytes fromBytesWith
  rw [if_neg (length_ne_zero_of_ne_nil b hb), if_pos hdelim]

lemma fromBytes_error_length (b : List Nat) (hb : b ≠ [])
    (h0 : b.getD 0 0 = DELIMITER) (h1 : b.getD (b.length - 1) 0 = DELIMITER)
    (hbad : (b.drop 1).dropLast.length < 5 ∨
      (b.drop 1).dropLast.getD 0 0 ≠ (b.drop 1).dropLast.length) :
    Message.fromBytes b = .error .length := by
  unfold Message.fromBytes fromBytesWith
  rw [if_neg (length_ne_zero_of_ne_nil b hb), if_neg (not_not_intro ⟨h0, h1⟩),
    if_pos (hbad.elim Or.inl fun h => Or.inr (Or.inl h))]

lemma fromBytes_not_length_cond (b : List Nat)
    (hl5 : ¬ (b.drop 1).dropLast.length < 5)
    (hdecl : (b.drop 1).dropLast.getD 0 0 = (b.drop 1).dropLast.length) :
    ¬ ((b.drop 1).dropLast.length < 5 ∨
      (b.drop 1).dropLast.getD 0 0 ≠ (b.drop 1).dropLast.length ∨
      Option.any (fun L => (b.drop 1).dropLast.getD 0 0 != L) none = true) := by
  rintro (h | h | h)
  · exact hl5 h
  · exact h hdecl
  · simp [Option.any] at h

lemma fromBytes_error_checksum (b : List Nat) (hb : b ≠ [])
    (h0 : b.getD 0 0 = DELIMITER) (h1 : b.getD (b.length - 1) 0 = DELIMITER)
    (hl5 : ¬ (b.drop 1).dropLast.length < 5)
    (hdecl : (b.drop 1).dropLast.getD 0 0 = (b.drop 1).dropLast.length)
    (hcrc : (b.drop 1).dropLast.getD ((b.drop 1).dropLast.length - 1) 0
      ≠ Message.crc (b.drop 1).dropLast.dropLast) :
    Message.fromBytes b = .error .checksum := by
  unfold Message.fromBytes fromBytesWith
  rw [if_neg (length_ne_zero_of_ne_nil b hb), if_neg (not_not_intro ⟨h0, h1⟩),
    if_neg (fromBytes_not_length_cond b hl5 hdecl),
    if_neg (by simp [Option.any]), if_neg (by simp [Option.any]), if_pos hcrc]

lemma fromBytes_success (b : List Nat) (hb : b ≠ [])
    (h0 : b.getD 0 0 = DELIMITER) (h1 : b.getD (b.length - 1) 0 = DELIMITER)
    (hl5 : ¬ (b.drop 1).dropLast.length < 5)
    (hdecl : (b.drop 1).dropLast.getD 0 0 = (b.drop 1).dropLast.length)
    (hcrc : (b.drop 1).dropLast.getD ((b.drop 1).dropLast.length - 1) 0
      = Message.crc (b.drop 1).dropLast.dropLast) :
    Message.fromBytes b
      = .ok ⟨some ((b.drop 1).dropLast.getD 1 0), (b.drop 1).dropLast.getD 3 0,
          ((b.drop 1).dropLast.drop 4).dropLast⟩ := by
  unfold Message.fromBytes fromBytesWith
  rw [if_neg (length_ne_zero_of_ne_nil b hb), if_neg (not_not_intro ⟨h0, h1⟩),
    if_neg (fromBytes_not_length_cond b hl5 hdecl),
    if_neg (by simp [Option.any]), if_neg (by simp [Option.any]), if_neg (not_not_intro hcrc)]

theorem C4_decode_errors :
    (∀ b : List Nat, b ≠ [] →
        ¬ (b.getD 0 0 = DELIMITER ∧ b.getD (b.length - 1) 0 = DELIMITER) →
        Message.fromBytes b = .error .framing) ∧
    (∀ b : List Nat, b ≠ [] →
        b.getD 0 0 = DELIMITER → b.getD (b.length - 1) 0 = DELIMITER →
        ((b.drop 1).dropLast.length < 5 ∨
          (b.drop 1).dropLast.getD 0 0 ≠ (b.drop 1).dropLast.length) →
        Message.fromBytes b = .error .length) ∧
    (∀ b : List Nat, b ≠ [] →
        b.getD 0 0 = DELIMITER → b.getD (b.length - 1) 0 = DELIMITER →
        ¬ (b.drop 1).dropLast.length < 5 →
        (b.drop 1).dropLast.getD 0 0 = (b.drop 1).dropLast.length →
        (b.drop 1).dropLast.getD ((b.drop 1).dropLast.length - 1) 0
          ≠ Message.crc (b.drop 1).dropLast.dropLast →
        Message.fromBytes b = .error .checksum) ∧
    (∀ b : List Nat, b ≠ [] →
        b.getD 0 0 = DELIMITER → b.getD (b.length - 1) 0 = DELIMITER →
        ¬ (b.drop 1).dropLast.length < 5 →
        (b.drop 1).dropLast.getD 0 0 = (b.drop 1).dropLast.length →
        (b.drop 1).dropLast.getD ((b.drop 1).dropLast.length - 1) 0
          = Message.crc (b.drop 1).dropLast.dropLast →
        Message.fromBytes b
          = .ok ⟨some ((b.drop 1).dropLast.getD 1 0), (b.drop 1).dropLast.getD 3 0,
              ((b.drop 1).dropLast.drop 4).dropLast⟩) :=
  ⟨fromBytes_error_framing, fun b hb h0 h1 hbad => fromBytes_error_length b hb h0 h1 hbad,
   fun b hb h0 h1 hl5 hdecl hcrc => fromBytes_error_checksum b hb h0 h1 hl5 hdecl hcrc,
   fun b hb h0 h1 hl5 hdecl hcrc => fromBytes_success b hb h0 h1 hl5 hdecl hcrc⟩

/-- C4 witness: the claim's own example — the 3-byte input `0x01 0x02 0x03`
fails with a framing error. -/
theorem C4_decode_errors_witness :
    Message.fromBytes [0x01, 0x02, 0x03] = .error .framing :=
  C4_decode_errors.1 [0x01, 0x02, 0x03] (by decide) (by decide)

/-- C5 counterexample: with the pending message enqueued while unassigned
(channel `none`), the grant after the happy-path handshake sends the pending
message *unchanged* — its channel is still `none`, not stamped to the
client's channel 5 as the claim states. -/
theorem C5_pending_not_stamped :
    Client.run ⟨none, [⟨none, 0x11, [0x04, 0x00]⟩], none⟩
        [(0, newClientClearToSend),
         (1, channelAssignmentResponse [0x05, 0x00, 0x00]),
         (2, clientClearToSend 5)]
      = some (⟨some 5, [], none⟩,
          [channelAssignmentRequest, channelAssignmentAck 5, ⟨none, 0x11, [0x04, 0x00]⟩],
          [false, false, false]) ∧
    (Message.mk none 0x11 [0x04, 0x00]).channel ≠ some 5 := by
  exact ⟨rfl, by decide⟩

/-- C5 (amended): starting unassigned with exactly one message enqueued,
the inbound sequence NewClientClearToSend, ChannelAssignmentResponse
carrying channel 5, ClientClearToSend on channel 5 produces exactly the
outbound sequence ChannelAssignmentRequest, ChannelAssignmentAcknowledgement
on channel 5, then the pending message exactly as it was enqueued (the code
performs no channel stamping), and leaves the client assigned to channel 5;
with an empty queue the grant produces NothingToSend on channel 5 instead. -/
theorem C5_arbitration_happy_path (m : Message) (t1 t2 t3 : Nat) :
    Client.run ⟨none, [m], none⟩
        [(t1, newClientClearToSend),
         (t2, channelAssignmentResponse [0x05, 0x00, 0x00]),
         (t3, clientClearToSend 5)]
      = some (⟨some 5, [], none⟩,
          [channelAssignmentRequest, channelAssignmentAck 5, m],
          [false, false, false]) ∧
    Client.run ⟨none, [], none⟩
        [(t1, newClientClearToSend),
         (t2, channelAssignmentResponse [0x05, 0x00, 0x00]),
         (t3, clientClearToSend 5)]
      = some (⟨some 5, [], none⟩,
          [channelAssignmentRequest, channelAssignmentAck 5, nothingToSend 5],
          [false, false, false]) := by
  exact ⟨rfl, rfl⟩

/-- C8 counterexample: the claim's premise only excludes
`ExistingClientRequest` and `ClientClearToSend` on channel 5, but a message
of any *other* type addressed to channel 5 (here type 0x13 at time 5)
disarms the timeout, so after 10 seconds no diagnostic is ever surfaced
(both steps report `false`) and the timeout is gone — the machine never
reaches the claimed Stale condition. -/
theorem C8_stale_premise_insufficient :
    Client.run ⟨some 5, [], some 10⟩
        [(5, ⟨some 5, 0x13, []⟩), (20, ⟨some 0xff, 0x13, []⟩)]
      = some (⟨some 5, [], none⟩, [], [false, false]) := by
  rfl

/-- C8 (amended): from Assigned(5) with the grant-timeout armed at deadline
`T`, as long as no message of *any* type addressed to channel 5 is
processed, the state never changes (the timeout stays armed — the code has
no Stale transition, staleness is exactly "armed and expired"), the client
sends nothing (listen-only, in particular no channel re-request), and a
frame addressed to a different channel surfaces the diagnostic exactly when
it is processed after the deadline. -/
theorem C8_timeout_listen_only :
    (∀ (q : List Message) (T now : Nat) (msg : Message), msg.channel ≠ some 5 →
        Client.onmessage now ⟨some 5, q, some T⟩ msg
          = some (⟨some 5, q, some T⟩, [], decide (now > T))) ∧
    (∀ (q : List Message) (T : Nat) (steps : List (Nat × Message)),
        (∀ p ∈ steps, (p : Nat × Message).2.channel ≠ some 5) →
        Client.run ⟨some 5, q, some T⟩ steps
          = some (⟨some 5, q, some T⟩, [], steps.map fun p => decide (p.1 > T))) := by
  have hstep : ∀ (q : List Message) (T now : Nat) (msg : Message), msg.channel ≠ some 5 →
      Client.onmessage now ⟨some 5, q, some T⟩ msg
        = some (⟨some 5, q, some T⟩, [], decide (now > T)) := by
    intro q T now msg hmsg
    simp only [Client.onmessage, if_neg hmsg]
  refine ⟨hstep, ?_⟩
  intro q T steps
  induction steps with
  | nil => intro _; rfl
  | cons p rest ih =>
    intro hall
    obtain ⟨now, msg⟩ := p
    simp only [Client.run, hstep q T now msg (hall _ (List.mem_cons_self _ _)),
      ih fun x hx => hall x (List.mem_cons_of_mem _ hx)]
    rfl

/-- C8 witness: a broadcast frame (channel 0xFF) processed at time 20 with
the deadline at 10 leaves the state untouched, sends nothing and fires the
diagnostic. -/
theorem C8_timeout_listen_only_witness :
    Client.onmessage 20 ⟨some 5, [], some 10⟩ ⟨some 0xff, 0x13, []⟩
      = some (⟨some 5, [], some 10⟩, [], true) :=
  C8_timeout_listen_only.1 [] 10 20 ⟨some 0xff, 0x13, []⟩ (by decide)

lemma getD_append_last (l : List Nat) (a : Nat) : (l ++ [a]).getD l.length 0 = a := by
  induction l with
  | nil => rfl
  | cons x xs ih => exact ih

lemma getD_concat_of_eq {l : List Nat} {a : Nat} {n : Nat} (h : n = l.length) :
    (l ++ [a]).getD n 0 = a := by
  rw [h]
  exact getD_append_last l a

/-- `Message.__bytes__` on a well-formed message, in explicit wire form. -/
lemma toBytes_some {ch ty : Nat} {args : List Nat} (hch : ch ≤ 0xff) (hty : ty ≤ 0xff)
    (hargs : args.length ≤ 250) :
    Message.toBytes ⟨some ch, ty, args⟩
      = some (DELIMITER :: (((args.length + 5) :: ch :: flagFor ch :: ty ::
          (args ++ [Message.crc ((args.length + 5) :: ch :: flagFor ch :: ty :: args)]))
            ++ [DELIMITER])) := by
  simp only [Message.toBytes]
  rw [if_pos ⟨by omega, hch, hty⟩]
  simp [List.append_assoc]

/-- C2: for a frame with a one-byte channel and type code and a payload of
at most 250 bytes, encoding produces exactly
`DELIM | 5+len | channel | flag | type | payload | crc8 | DELIM`
(`flag` as in `flagFor`: 0xAF on the broadcast channel 0xFF, 0xBF
otherwise), a total of `len(payload) + 7` bytes, and encoding fails if and
only if the payload exceeds 250 bytes. -/
theorem C2_encode (ch ty : Nat) (args : List Nat) (hch : ch ≤ 0xff) (hty : ty ≤ 0xff) :
    (args.length ≤ 250 →
      Message.toBytes ⟨some ch, ty, args⟩
        = some (DELIMITER :: (((args.length + 5) :: ch :: flagFor ch :: ty ::
            (args ++ [Message.crc ((args.length + 5) :: ch :: flagFor ch :: ty :: args)]))
              ++ [DELIMITER])) ∧
      ∀ bs, Message.toBytes ⟨some ch, ty, args⟩ = some bs → bs.length = args.length + 7) ∧
    (Message.toBytes ⟨some ch, ty, args⟩ = none ↔ 250 < args.length) := by
  constructor
  · intro hargs
    refine ⟨toBytes_some hch hty hargs, ?_⟩
    intro bs hbs
    rw [toBytes_some hch hty hargs] at hbs
    cases hbs
    simp only [List.length_cons, List.length_append, List.length_nil]
  · constructor
    · intro hnone
      by_contra hgt
      push_neg at hgt
      rw [toBytes_some hch hty hgt] at hnone
      cases hnone
    · intro hgt
      simp only [Message.toBytes]
      rw [if_neg fun h => absurd h.1 (by omega)]

/-- C2 witness: the empty-payload message on channel 0 with type code 0
serializes to the 7-byte frame `7E 05 00 BF 00 EC 7E`. -/
theorem C2_encode_witness :
    Message.toBytes ⟨some 0, 0, []⟩ = some [0x7e, 0x05, 0x00, 0xbf, 0x00, 0xec, 0x7e] :=
  ((C2_encode 0 0 [] (by decide) (by decide)).1 (by decide)).1

/-- C9: frame decoding never inspects the flag byte — for any flag value at
interior index 2, a frame with correct delimiters, length byte and checksum
is accepted and yields the generic message with the frame's channel, type
code and payload; and when the flag byte has the canonical value
(`flagFor`: 0xAF for channel 0xFF, 0xBF otherwise), re-serializing the
decoded message reproduces the input byte-for-byte. -/
theorem C9_flag_not_inspected (ch flag ty : Nat) (p : List Nat)
    (hch : ch ≤ 0xff) (hty : ty ≤ 0xff) (hp : p.length ≤ 250) :
    Message.fromBytes (DELIMITER :: (((p.length + 5) :: ch :: flag :: ty ::
        (p ++ [Message.crc ((p.length + 5) :: ch :: flag :: ty :: p)])) ++ [DELIMITER]))
      = .ok ⟨some ch, ty, p⟩ ∧
    (flag = flagFor ch →
      Message.toBytes ⟨some ch, ty, p⟩
        = some (DELIMITER :: (((p.length + 5) :: ch :: flag :: ty ::
            (p ++ [Message.crc ((p.length + 5) :: ch :: flag :: ty :: p)])) ++ [DELIMITER]))) := by
  constructor
  · set c := Message.crc ((p.length + 5) :: ch :: flag :: ty :: p) with hc
    set y := (p.length + 5) :: ch :: flag :: ty :: (p ++ [c]) with hy
    have hi : ((DELIMITER :: (y ++ [DELIMITER])).drop 1).dropLast = y := by
      show (y ++ [DELIMITER]).dropLast = y
      exact List.dropLast_concat
    have hb : (DELIMITER :: (y ++ [DELIMITER])) ≠ [] := by simp
    have h0 : (DELIMITER :: (y ++ [DELIMITER])).getD 0 0 = DELIMITER := rfl
    have h1 : (DELIMITER :: (y ++ [DELIMITER])).getD
        ((DELIMITER :: (y ++ [DELIMITER])).length - 1) 0 = DELIMITER := by
      show ((DELIMITER :: y) ++ [DELIMITER]).getD
        ((DELIMITER :: (y ++ [DELIMITER])).length - 1) 0 = DELIMITER
      refine getD_concat_of_eq ?_
      simp only [List.length_cons, List.length_append, List.length_nil]
      omega
    have hylen : y.length = p.length + 5 := by
      rw [hy]
      simp only [List.length_cons, List.length_append, List.length_nil]
    have hl5 : ¬ ((DELIMITER :: (y ++ [DELIMITER])).drop 1).dropLast.length < 5 := by
      rw [hi, hylen]
      omega
    have hdecl : ((DELIMITER :: (y ++ [DELIMITER])).drop 1).dropLast.getD 0 0
        = ((DELIMITER :: (y ++ [DELIMITER])).drop 1).dropLast.length := by
      rw [hi, hylen, hy]
      rfl
    have hdl : y.dropLast = (p.length + 5) :: ch :: flag :: ty :: p := by
      rw [hy]
      show (((p.length + 5) :: ch :: flag :: ty :: p) ++ [c]).dropLast = _
      exact List.dropLast_concat
    have hcrc : ((DELIMITER :: (y ++ [DELIMITER])).drop 1).dropLast.getD
          (((DELIMITER :: (y ++ [DELIMITER])).drop 1).dropLast.length - 1) 0
        = Message.crc ((DELIMITER :: (y ++ [DELIMITER])).drop 1).dropLast.dropLast := by
      rw [hi, hdl, ← hc, hylen]
      show (((p.length + 5) :: ch :: flag :: ty :: p) ++ [c]).getD (p.length + 5 - 1) 0 = c
      refine getD_concat_of_eq ?_
      simp only [List.length_cons]
      omega
    have hres := fromBytes_success (DELIMITER :: (y ++ [DELIMITER])) hb h0 h1 hl5 hdecl hcrc
    rw [hi, hy] at hres
    rw [hres]
    show Except.ok (Message.mk (some ch) ty ((p ++ [c]).dropLast)) = _
    rw [List.dropLast_concat]
  · intro hf
    rw [hf]
    exact toBytes_some hch hty hp

set_option maxRecDepth 100000 in
/-- C9 witness: the captured information-response frame
`7E 1A 0A BF 24 ... F9 7E` (channel 0x0A, canonical flag 0xBF, type 0x24)
decodes to its generic message and re-serializes to the same bytes. -/
theorem C9_flag_not_inspected_witness :
    Message.fromBytes [0x7e, 0x1a, 0x0a, 0xbf, 0x24, 0x64, 0xdc, 0x14, 0x00, 0x42, 0x50,
        0x32, 0x30, 0x30, 0x30, 0x47, 0x31, 0x04, 0x51, 0x80, 0x0c, 0x6b, 0x01, 0x0a,
        0x02, 0x00, 0xf9, 0x7e]
      = .ok ⟨some 0x0a, 0x24, [0x64, 0xdc, 0x14, 0x00, 0x42, 0x50, 0x32, 0x30, 0x30,
          0x30, 0x47, 0x31, 0x04, 0x51, 0x80, 0x0c, 0x6b, 0x01, 0x0a, 0x02, 0x00]⟩ ∧
    (0xbf = flagFor 0x0a →
      Message.toBytes ⟨some 0x0a, 0x24, [0x64, 0xdc, 0x14, 0x00, 0x42, 0x50, 0x32, 0x30,
          0x30, 0x30, 0x47, 0x31, 0x04, 0x51, 0x80, 0x0c, 0x6b, 0x01, 0x0a, 0x02, 0x00]⟩
        = some [0x7e, 0x1a, 0x0a, 0xbf, 0x24, 0x64, 0xdc, 0x14, 0x00, 0x42, 0x50, 0x32,
            0x30, 0x30, 0x30, 0x47, 0x31, 0x04, 0x51, 0x80, 0x0c, 0x6b, 0x01, 0x0a,
            0x02, 0x00, 0xf9, 0x7e]) :=
  C9_flag_not_inspected 0x0a 0xbf 0x24
    [0x64, 0xdc, 0x14, 0x00, 0x42, 0x50, 0x32, 0x30, 0x30, 0x30, 0x47, 0x31, 0x04,
     0x51, 0x80, 0x0c, 0x6b, 0x01, 0x0a, 0x02, 0x00] (by decide) (by decide) (by decide)

/-- C10: for every message with a one-byte channel and type code and at most
250 argument bytes, `len(m)` (`__len__`, i.e. `bytes(self)[1]`) returns the
frame's interior length byte `len(arguments) + 5`, which is exactly 7 less
than the serialized size `len(arguments) + 7` — `len` does not return the
serialized size. -/
theorem C10_pyLen_interior_length_byte (ch ty : Nat) (args : List Nat)
    (hch : ch ≤ 0xff) (hty : ty ≤ 0xff) (hargs : args.length ≤ 250) :
    Message.pyLen ⟨some ch, ty, args⟩ = some (args.length + 5) ∧
    (Message.toBytes ⟨some ch, ty, args⟩).map List.length = some (args.length + 7) ∧
    args.length + 5 ≠ args.length + 7 := by
  refine ⟨?_, ?_, by omega⟩
  · unfold Message.pyLen
    rw [toBytes_some hch hty hargs]
    rfl
  · rw [toBytes_some hch hty hargs]
    show some (DELIMITER :: (((args.length + 5) :: ch :: flagFor ch :: ty ::
        (args ++ [Message.crc ((args.length + 5) :: ch :: flagFor ch :: ty :: args)]))
          ++ [DELIMITER])).length = _
    simp only [List.length_cons, List.length_append, List.length_nil]

/-- C10 witness: the empty-payload message on channel 0 with type code 0 has
`len` 5 and serialized size 7. -/
theorem C10_pyLen_interior_length_byte_witness :
    Message.pyLen ⟨some 0, 0, []⟩ = some 5 ∧
    (Message.toBytes ⟨some 0, 0, []⟩).map List.length = some 7 ∧
    (5 : Nat) ≠ 7 :=
  C10_pyLen_interior_length_byte 0 0 [] (by decide) (by decide) (by decide)

lemma crc8BitStep_lt (c : Nat) : crc8BitStep c < 256 := by
  unfold crc8BitStep
  split
  · exact lt_of_le_of_lt Nat.and_le_right (by norm_num)
  · exact lt_of_le_of_lt Nat.and_le_right (by norm_num)

lemma iterate8_crc8BitStep_lt (x : Nat) : crc8BitStep^[8] x < 256 := by
  rw [show (8 : Nat) = 7 + 1 from rfl, Function.iterate_succ_apply']
  exact crc8BitStep_lt _

set_option maxRecDepth 100000 in
/-- Each table entry equals eight reference shift steps on its index. -/
lemma crc_table_ok : ∀ x : Nat, x < 256 → CRC_TABLE.getD x 0 = crc8BitStep^[8] x := by decide

lemma and_ff_of_lt {x : Nat} (h : x < 256) : x &&& 0xff = x := by
  have h2 : x < 2 ^ 8 := by norm_num; exact h
  have h3 := Nat.and_pow_two_sub_one_of_lt_two_pow h2
  norm_num at h3
  exact h3

lemma xor_lt_256 {a b : Nat} (ha : a < 256) (hb : b < 256) : a ^^^ b < 256 := by
  have h := Nat.xor_lt_two_pow (n := 8) (by norm_num; exact ha) (by norm_num; exact hb)
  norm_num at h
  exact h

lemma shiftLeft8_and_ff (c : Nat) : (c <<< 8) &&& 0xff = 0 := by
  have h := Nat.and_pow_two_sub_one_eq_mod (c <<< 8) 8
  norm_num at h
  rw [h, Nat.shiftLeft_eq]
  norm_num [Nat.mul_mod_left]

/-- One table-driven CRC step agrees with one reference byte step on byte
values. -/
lemma crcStep_eq_ref {c b : Nat} (hc : c < 256) (hb : b < 256) :
    crcStep c b = crc8RefStep c b := by
  have hxor : c ^^^ b < 256 := xor_lt_256 hc hb
  unfold crcStep crc8RefStep
  rw [and_ff_of_lt hxor, crc_table_ok _ hxor, Nat.and_xor_distrib_right,
    shiftLeft8_and_ff, Nat.xor_zero, and_ff_of_lt (iterate8_crc8BitStep_lt _)]

lemma foldl_crcStep_eq_ref : ∀ (l : List Nat) (c : Nat), c < 256 → (∀ b ∈ l, b < 256) →
    l.foldl crcStep c = l.foldl crc8RefStep c := by
  intro l
  induction l with
  | nil => intro c _ _; rfl
  | cons b rest ih =>
    intro c hc hl
    simp only [List.foldl_cons]
    rw [crcStep_eq_ref hc (hl b (List.mem_cons_self b rest))]
    refine ih (crc8RefStep c b) ?_ fun x hx => hl x (List.mem_cons_of_mem b hx)
    unfold crc8RefStep
    exact iterate8_crc8BitStep_lt _

set_option maxRecDepth 100000 in
/-- C3: on byte sequences the table-driven `Message.crc` (initial value
0x02, final XOR 0x02) computes exactly the reference bit-by-bit MSB-first
non-reflected CRC-8 with polynomial 0x07, initial value 0x02 and final XOR
0x02; and applied to the captured information-response frame's
`length..payload` bytes `1A 0A BF 24 ...` it equals that frame's trailing
checksum byte 0xF9. -/
theorem C3_crc_matches_reference :
    (∀ data : List Nat, (∀ b ∈ data, b < 256) → Message.crc data = crc8Ref data) ∧
    Message.crc [0x1a, 0x0a, 0xbf, 0x24, 0x64, 0xdc, 0x14, 0x00, 0x42, 0x50, 0x32, 0x30,
        0x30, 0x30, 0x47, 0x31, 0x04, 0x51, 0x80, 0x0c, 0x6b, 0x01, 0x0a, 0x02, 0x00]
      = 0xf9 := by
  constructor
  · intro data h
    unfold Message.crc crc8Ref
    rw [foldl_crcStep_eq_ref data 0x02 (by norm_num) h]
  · rfl

set_option maxRecDepth 100000 in
/-- C3 witness: the equivalence applied to the captured frame's bytes. -/
theorem C3_crc_matches_reference_witness :
    Message.crc [0x1a, 0x0a, 0xbf, 0x24, 0x64, 0xdc, 0x14, 0x00, 0x42, 0x50, 0x32, 0x30,
        0x30, 0x30, 0x47, 0x31, 0x04, 0x51, 0x80, 0x0c, 0x6b, 0x01, 0x0a, 0x02, 0x00]
      = crc8Ref [0x1a, 0x0a, 0xbf, 0x24, 0x64, 0xdc, 0x14, 0x00, 0x42, 0x50, 0x32, 0x30,
        0x30, 0x30, 0x47, 0x31, 0x04, 0x51, 0x80, 0x0c, 0x6b, 0x01, 0x0a, 0x02, 0x00] :=
  C3_crc_matches_reference.1 _ (by decide)

lemma map_range_getD (l : List Nat) (h : 31 ≤ l.length) :
    (List.range 31).map (fun i => l.getD i 0) = l.take 31 := by
  apply List.ext_getElem?
  intro n
  by_cases hn : n < 31
  · rw [List.getElem?_map, List.getElem?_range hn, Option.map_some',
      List.getElem?_take_of_lt hn, List.getElem?_eq_getElem (by omega),
      List.getD_eq_getElem?_getD, List.getElem?_eq_getElem (by omega)]
    rfl
  · rw [List.getElem?_map, List.getElem?_eq_none (by simpa using Nat.not_lt.mp hn),
      List.getElem?_eq_none (by simp [Nat.not_lt.mp hn])]
    rfl

/-- The decoder's byte-compare loop reports "no difference" exactly when the
first 31 bytes of the new frame coincide with the stored snapshot. -/
lemma range_any_bne_eq_false_iff (p data : List Nat) (hp : p.length = 31)
    (hd : 31 ≤ data.length) :
    ((List.range 31).any (fun i => data.getD i 0 != p.getD i 0) = false)
      ↔ data.take 31 = p := by
  rw [List.any_eq_false]
  constructor
  · intro hall
    rw [← map_range_getD data hd]
    apply List.ext_getElem?
    intro n
    by_cases hn : n < 31
    · rw [List.getElem?_map, List.getElem?_range hn, Option.map_some']
      have h3 := hall n (List.mem_range.mpr hn)
      have heq : data.getD n 0 = p.getD n 0 := by simpa using h3
      rw [heq, List.getD_eq_getElem?_getD, List.getElem?_eq_getElem (by omega)]
      rfl
    · rw [List.getElem?_map, List.getElem?_eq_none (by simpa using Nat.not_lt.mp hn),
        List.getElem?_eq_none (by omega)]
      rfl
  · intro htake i hi
    have hi31 : i < 31 := List.mem_range.mp hi
    have heq : data.getD i 0 = p.getD i 0 := by
      rw [← htake, List.getD_eq_getElem?_getD, List.getD_eq_getElem?_getD,
        List.getElem?_take_of_lt hi31]
    rw [heq]
    simp

/-- C6: with the configuration loaded, the status decoder reports no change
iff the new frame's raw 31 bytes equal the previous snapshot byte-for-byte
(the comparison covers all 31 bytes with no pre-filtering), the stored
snapshot is replaced wholesale by the new raw bytes exactly when a
difference is found, and the first broadcast always counts as changed. -/
theorem C6_status_change_detection :
    (∀ (p data : List Nat), p.length = 31 → 31 ≤ data.length →
      (((parseStatusUpdateDiff (some p) data).2 = false) ↔ data.take 31 = p) ∧
      (parseStatusUpdateDiff (some p) data).1
        = some (if data.take 31 = p then p else data.take 31)) ∧
    (∀ data : List Nat, 31 ≤ data.length →
      parseStatusUpdateDiff none data = (some (data.take 31), true)) := by
  constructor
  · intro p data hp hd
    have hkey := range_any_bne_eq_false_iff p data hp hd
    have hbody : parseStatusUpdateDiff (some p) data
        = if ((List.range 31).any fun i => data.getD i 0 != p.getD i 0) = true
          then (some ((List.range 31).map fun i => data.getD i 0), true)
          else (some p, false) := rfl
    constructor
    · rw [← hkey, hbody]
      by_cases hA : ((List.range 31).any fun i => data.getD i 0 != p.getD i 0) = true
      · rw [if_pos hA, hA]
      · rw [if_neg hA]
        simp only [Bool.not_eq_true] at hA
        rw [hA]
    · rw [hbody]
      by_cases hA : ((List.range 31).any fun i => data.getD i 0 != p.getD i 0) = true
      · rw [if_pos hA]
        have hne : ¬ data.take 31 = p := by
          rw [← hkey, hA]
          simp
        rw [if_neg hne, map_range_getD data hd]
      · rw [if_neg hA]
        simp only [Bool.not_eq_true] at hA
        rw [if_pos (hkey.mp hA)]
  · intro data hd
    have hbody : parseStatusUpdateDiff none data
        = (some ((List.range 31).map fun i => data.getD i 0), true) := rfl
    rw [hbody, map_range_getD data hd]

/-- C6 witness: an all-zero 31-byte snapshot against an all-zero 32-byte
frame is reported unchanged and the snapshot is kept. -/
theorem C6_status_change_detection_witness :
    (((parseStatusUpdateDiff (some (List.replicate 31 0)) (List.replicate 32 0)).2 = false)
      ↔ (List.replicate 32 0).take 31 = List.replicate 31 0) ∧
    (parseStatusUpdateDiff (some (List.replicate 31 0)) (List.replicate 32 0)).1
      = some (if (List.replicate 32 0).take 31 = List.replicate 31 0
          then List.replicate 31 0 else (List.replicate 32 0).take 31) :=
  C6_status_change_detection.1 (List.replicate 31 0) (List.replicate 32 0)
    (by decide) (by decide)

/-- C7 counterexample: on a frame with status byte 16 (the pump byte) equal
to 0x0C and payload byte 10 (`data[15]`) equal to 0x08, the decoder's pump-2
value `(data[16] >> 1) & 0x3 = 2` differs from the claimed 2-bit-per-pump
packing `(data[16] >> 2) & 0x3 = 3`, and the decoder's temperature-range
`(data[15] & 0x04) >> 2 = 0` (bit 2) differs from the claimed bit 3 value 1. -/
theorem C7_pump_packing_refuted :
    (pumpStatusUpdate [1, 1, 1, 1, 1, 1] [0, 0, 0, 0, 0, 0]
        [0, 0, 0, 0, 0, 0, 0, 0, 0, 0, 0, 0, 0, 0, 0, 0x08, 0x0c, 0x00]).getD 1 0
      ≠ pumpSpeedSpecTwoBit [0, 0, 0, 0, 0, 0, 0, 0, 0, 0, 0, 0, 0, 0, 0, 0x08, 0x0c, 0x00] 1 ∧
    temprange [0, 0, 0, 0, 0, 0, 0, 0, 0, 0, 0, 0, 0, 0, 0, 0x08, 0x0c, 0x00]
      ≠ temprangeSpecBit3 [0, 0, 0, 0, 0, 0, 0, 0, 0, 0, 0, 0, 0, 0, 0, 0x08, 0x0c, 0x00] := by
  decide

lemma getD_map_range {n i : Nat} (f : Nat → Nat) (h : i < n) :
    ((List.range n).map f).getD i 0 = f i := by
  rw [List.getD_eq_getElem?_getD, List.getElem?_map, List.getElem?_range h, Option.map_some']
  rfl

lemma and_three_eq_mod (x : Nat) : x &&& 3 = x % 4 := by
  have h := Nat.and_pow_two_sub_one_eq_mod x 2
  norm_num at h
  exact h

lemma and_shiftRight_distrib (x y n : Nat) : (x &&& y) >>> n = (x >>> n) &&& (y >>> n) := by
  apply Nat.eq_of_testBit_eq
  intro i
  simp [Nat.testBit_shiftRight, Nat.testBit_and]

/-- C7 (amended): the status decoder reads pump i (0-based) from the pump
bytes with a *single-bit* stride — `(data[16] >> i) & 0x3` for pumps 1-4 and
`(data[17] >> (i-4)) & 0x3` for pumps 5-6, i.e. `data[16] / 2^i % 4`, not
the 2-bit-per-pump packing `data[16] / 4^i % 4` — a pump with no physical
presence in the configuration's pump array is never read (its previous value
is kept); heating-active is bits 4-5 of payload byte 10 (`data[15] / 16 % 4`)
as claimed, but temperature-range is bit 2 of payload byte 10
(`data[15] / 4 % 2`), not bit 3. -/
theorem C7_status_field_extraction (pa old data : List Nat) :
    (∀ i, i < 6 → pa.getD i 0 = 0 →
      (pumpStatusUpdate pa old data).getD i 0 = old.getD i 0) ∧
    (∀ i, i < 4 → pa.getD i 0 ≠ 0 →
      (pumpStatusUpdate pa old data).getD i 0 = data.getD 16 0 / 2 ^ i % 4) ∧
    (∀ i, 4 ≤ i → i < 6 → pa.getD i 0 ≠ 0 →
      (pumpStatusUpdate pa old data).getD i 0 = data.getD 17 0 / 2 ^ (i - 4) % 4) ∧
    heatstate data = data.getD 15 0 / 16 % 4 ∧
    temprange data = data.getD 15 0 / 4 % 2 := by
  refine ⟨?_, ?_, ?_, ?_, ?_⟩
  · intro i hi hz
    unfold pumpStatusUpdate
    rw [getD_map_range _ hi, if_neg (not_not_intro hz)]
  · intro i hi hnz
    unfold pumpStatusUpdate
    rw [getD_map_range _ (by omega), if_pos hnz, if_pos hi,
      Nat.shiftRight_eq_div_pow, and_three_eq_mod]
  · intro i h4 hi hnz
    unfold pumpStatusUpdate
    rw [getD_map_range _ hi, if_pos hnz, if_neg (Nat.not_lt.mpr h4),
      Nat.shiftRight_eq_div_pow, and_three_eq_mod]
  · unfold heatstate
    rw [and_shiftRight_distrib]
    show (data.getD 15 0 >>> 4) &&& 3 = data.getD 15 0 / 16 % 4
    rw [Nat.shiftRight_eq_div_pow, and_three_eq_mod]
  · unfold temprange
    rw [and_shiftRight_distrib]
    show (data.getD 15 0 >>> 2) &&& 1 = data.getD 15 0 / 4 % 2
    rw [Nat.shiftRight_eq_div_pow, Nat.and_one_is_mod]

/-- C7 witness: with all six pumps present, pump 2 on the counterexample
frame reads 2 (single-bit stride) and an absent pump keeps its old value. -/
theorem C7_status_field_extraction_witness :
    (pumpStatusUpdate [1, 1, 1, 1, 1, 1] [0, 0, 0, 0, 0, 0]
        [0, 0, 0, 0, 0, 0, 0, 0, 0, 0, 0, 0, 0, 0, 0, 0x08, 0x0c, 0x00]).getD 1 0
      = ([0, 0, 0, 0, 0, 0, 0, 0, 0, 0, 0, 0, 0, 0, 0, 0x08, 0x0c, 0x00] : List Nat).getD 16 0
          / 2 ^ 1 % 4 :=
  (C7_status_field_extraction [1, 1, 1, 1, 1, 1] [0, 0, 0, 0, 0, 0]
    [0, 0, 0, 0, 0, 0, 0, 0, 0, 0, 0, 0, 0, 0, 0, 0x08, 0x0c, 0x00]).2.1 1
    (by decide) (by decide)

end Pybalboa
